import Mathlib

/-!
Shallow embedding of the tool-invocation core of `codex-rs`:
`core/src/tools/router.rs` (tool call normalization, parallel-eligibility
policy, dispatch with error isolation) and `core/src/tasks/compact.rs`
(the compaction session task). External collaborators (the tool registry,
the session's MCP name lookup, the compaction strategies, the telemetry
counter) are modelled as explicit parameters; their outcomes are values
the embedded functions consume, and the effects the code performs on them
are recorded in explicit traces.
-/

set_option autoImplicit false

namespace Codex

/-- Sandbox permission mode for a shell call. `UseDefault` is the only
variant the router constructs; the remaining modes live outside the
analysed slice. -/
inductive SandboxPermissions where
  | UseDefault
  deriving DecidableEq, Repr

/-- `codex_protocol::models::ShellToolCallParams`, the structured shell
parameters produced for a legacy local-shell call (the fields the router
populates). -/
structure ShellToolCallParams where
  command : List String
  workdir : Option String
  timeout_ms : Option Nat
  sandbox_permissions : Option SandboxPermissions
  prefix_rule : Option String
  justification : Option String
  deriving DecidableEq, Repr

/-- The exec form of `codex_protocol::models::LocalShellAction`, with the
fields the router reads. -/
structure LocalShellExecAction where
  command : List String
  working_directory : Option String
  timeout_ms : Option Nat
  deriving DecidableEq, Repr

/-- `codex_protocol::models::LocalShellAction`: the action carried by a
legacy local-shell call. `Exec` is the only variant the router matches. -/
inductive LocalShellAction where
  | Exec (exec : LocalShellExecAction)
  deriving DecidableEq, Repr

/-- The discriminated union of invocation shapes
(`crate::tools::context::ToolPayload`). -/
inductive ToolPayload where
  | Mcp (server : String) (tool : String) (raw_arguments : String)
  | Function (arguments : String)
  | Custom (input : String)
  | LocalShell (params : ShellToolCallParams)
  deriving DecidableEq, Repr

/-- Whether the payload is the `Custom` variant; mirrors
`matches!(payload, ToolPayload::Custom { .. })` in `dispatch_tool_call`. -/
def ToolPayload.isCustom : ToolPayload → Bool
  | .Custom _ => true
  | _ => false

/-- A normalized tool call (`ToolCall` in `router.rs`). -/
structure ToolCall where
  tool_name : String
  call_id : String
  payload : ToolPayload
  deriving DecidableEq, Repr

/-- `codex_protocol::models::ResponseItem`, restricted to the variants the
router distinguishes. `Message` and `Reasoning` stand for the remaining,
non-tool-call item kinds that fall into the catch-all arm of
`build_tool_call`. -/
inductive ResponseItem where
  | FunctionCall (name : String) (arguments : String) (call_id : String)
  | CustomToolCall (name : String) (input : String) (call_id : String)
  | LocalShellCall (id : Option String) (call_id : Option String)
      (action : LocalShellAction)
  | Message (content : String)
  | Reasoning (content : String)
  deriving DecidableEq, Repr

/-- Whether the item is one of the three tool-call kinds that
`build_tool_call` translates (function call, custom tool call,
local-shell call). -/
def ResponseItem.isToolCallItem : ResponseItem → Bool
  | .FunctionCall _ _ _ => true
  | .CustomToolCall _ _ _ => true
  | .LocalShellCall _ _ _ => true
  | _ => false

/-- Body of a function-call output
(`codex_protocol::models::FunctionCallOutputBody`); `Text` is the only
variant the router constructs. -/
inductive FunctionCallOutputBody where
  | Text (text : String)
  deriving DecidableEq, Repr

/-- `codex_protocol::models::FunctionCallOutputPayload`. -/
structure FunctionCallOutputPayload where
  body : FunctionCallOutputBody
  success : Option Bool
  deriving DecidableEq, Repr

/-- `codex_protocol::models::ResponseInputItem`, restricted to the output
shapes the router produces (the registry may also return these). -/
inductive ResponseInputItem where
  | FunctionCallOutput (call_id : String) (output : FunctionCallOutputPayload)
  | CustomToolCallOutput (call_id : String) (output : String)
  deriving DecidableEq, Repr

/-- `crate::function_tool::FunctionCallError`. Only `Fatal` and
`MissingLocalShellCallId` appear in the analysed slice; `Recoverable`
collapses the remaining variants, which per the spec are recoverable and
carry a display-able message. -/
inductive FunctionCallError where
  | Fatal (message : String)
  | MissingLocalShellCallId
  | Recoverable (message : String)
  deriving DecidableEq, Repr

/-- Whether the error is the `Fatal` variant. -/
def FunctionCallError.isFatal : FunctionCallError → Bool
  | .Fatal _ => true
  | _ => false

/-- Modelled from the spec: the `Display` rendering of a
`FunctionCallError` (`err.to_string()` in `failure_response`) is not under
`src/`; per the spec each variant carries a display-able message. -/
def FunctionCallError.display : FunctionCallError → String
  | .Fatal message => message
  | .MissingLocalShellCallId => "LocalShellCall without call_id or id"
  | .Recoverable message => message

/-- A tool spec as the router consumes it: only `spec.name()` is read. -/
structure ToolSpec where
  name : String
  deriving DecidableEq, Repr

/-- `crate::tools::registry::ConfiguredToolSpec`. -/
structure ConfiguredToolSpec where
  spec : ToolSpec
  supports_parallel_tool_calls : Bool
  deriving DecidableEq, Repr

/-- The invocation bundle handed to the registry
(`crate::tools::context::ToolInvocation`); the session, turn, and diff
tracker are opaque capabilities the router merely forwards, so only the
call-describing fields are modelled. -/
structure ToolInvocation where
  call_id : String
  tool_name : String
  payload : ToolPayload
  deriving DecidableEq, Repr

/-- `SHELL_TOOL_ALIASES` in `router.rs`: the alias set for the one logical
shell capability. -/
def SHELL_TOOL_ALIASES : List String :=
  ["shell", "container.exec", "local_shell", "shell_command", "exec_command"]

/-- `ToolRouter`: the immutable spec snapshot plus the registry, modelled
as the function `ToolRegistry::dispatch` the router delegates to. -/
structure ToolRouter where
  registry : ToolInvocation → Except FunctionCallError ResponseInputItem
  specs : List ConfiguredToolSpec

namespace ToolRouter

/-- `ToolRouter::configured_tool_supports_parallel`. -/
def configured_tool_supports_parallel (r : ToolRouter) (tool_name : String) : Bool :=
  (r.specs.filter (fun config => config.supports_parallel_tool_calls)).any
    (fun config => config.spec.name == tool_name)

/-- `ToolRouter::tool_supports_parallel`. -/
def tool_supports_parallel (r : ToolRouter) (tool_name : String) : Bool :=
  if r.configured_tool_supports_parallel tool_name then
    true
  else if SHELL_TOOL_ALIASES.contains tool_name then
    SHELL_TOOL_ALIASES.any (fun a => r.configured_tool_supports_parallel a)
  else
    false

/-- `ToolRouter::build_tool_call`. The session's async MCP name lookup
`parse_mcp_tool_name` is passed in as a function. -/
def build_tool_call (parse_mcp_tool_name : String → Option (String × String))
    (item : ResponseItem) : Except FunctionCallError (Option ToolCall) :=
  match item with
  | .FunctionCall name arguments call_id =>
    match parse_mcp_tool_name name with
    | some (server, tool) =>
      .ok (some { tool_name := name, call_id := call_id,
                  payload := .Mcp server tool arguments })
    | none =>
      .ok (some { tool_name := name, call_id := call_id,
                  payload := .Function arguments })
  | .CustomToolCall name input call_id =>
    .ok (some { tool_name := name, call_id := call_id,
                payload := .Custom input })
  | .LocalShellCall id call_id action =>
    match call_id.or id with
    | none => .error .MissingLocalShellCallId
    | some call_id =>
      match action with
      | .Exec exec =>
        let params : ShellToolCallParams :=
          { command := exec.command
            workdir := exec.working_directory
            timeout_ms := exec.timeout_ms
            sandbox_permissions := some .UseDefault
            prefix_rule := none
            justification := none }
        .ok (some { tool_name := "local_shell", call_id := call_id,
                    payload := .LocalShell params })
  | _ => .ok none

/-- `ToolRouter::failure_response`. -/
def failure_response (call_id : String) (payload_outputs_custom : Bool)
    (err : FunctionCallError) : ResponseInputItem :=
  let message := err.display
  if payload_outputs_custom then
    .CustomToolCallOutput call_id message
  else
    .FunctionCallOutput call_id
      { body := .Text message, success := some false }

/-- `ToolRouter::dispatch_tool_call`. -/
def dispatch_tool_call (r : ToolRouter) (call : ToolCall) :
    Except FunctionCallError ResponseInputItem :=
  let payload_outputs_custom := call.payload.isCustom
  let failure_call_id := call.call_id
  let invocation : ToolInvocation :=
    { call_id := call.call_id, tool_name := call.tool_name,
      payload := call.payload }
  match r.registry invocation with
  | .ok response => .ok response
  | .error (.Fatal message) => .error (.Fatal message)
  | .error err => .ok (failure_response failure_call_id payload_outputs_custom err)

end ToolRouter

/-- `codex_protocol::user_input::UserInput`: opaque conversation input,
only forwarded by the compaction task. -/
structure UserInput where
  text : String
  deriving DecidableEq, Repr

/-- The error type returned by the compaction strategies; per the spec it
must render a display message for the error event, so the message is the
only modelled content. -/
structure CodexErr where
  message : String
  deriving DecidableEq, Repr

/-- `ErrorEvent` as built by `to_error_event(Some(context))`. Modelled
from the spec: `to_error_event` lives outside `src/`; the spec only
requires the event to carry the remote/local tag in its message context
together with the strategy error's display message. -/
structure ErrorEvent where
  context : Option String
  message : String
  deriving DecidableEq, Repr

/-- `CodexErr::to_error_event`. Modelled from the spec (the method is not
under `src/`): pairs the optional context string with the error's display
message. -/
def CodexErr.to_error_event (err : CodexErr) (context : Option String) : ErrorEvent :=
  { context := context, message := err.message }

/-- `crate::protocol::EventMsg`, restricted to the variant the compaction
task emits. -/
inductive EventMsg where
  | Error (event : ErrorEvent)
  deriving DecidableEq, Repr

/-- One telemetry counter emission, as performed by
`otel_manager.counter(name, delta, tags)`. -/
structure CounterEmission where
  name : String
  delta : Nat
  tags : List (String × String)
  deriving DecidableEq, Repr

/-- Record of which compaction strategy was invoked and with what input:
`run_remote_compact_task(session, ctx)` carries no user input, while
`run_compact_task(session, ctx, input)` receives the input vector. -/
inductive StrategyInvocation where
  | remoteCompact
  | localCompact (input : List UserInput)
  deriving DecidableEq, Repr

/-- The externally observable effects of one `CompactTask::run`
execution: counter emissions, strategy invocations, and events sent
through the session's event channel, each in program order. -/
structure RunEffects where
  counters : List CounterEmission
  invocations : List StrategyInvocation
  events : List EventMsg
  deriving DecidableEq, Repr

/-- `crate::tasks::compact::CompactTask`, a stateless session task. -/
structure CompactTask where
  deriving DecidableEq, Repr

/-- `CompactTask::run`. External collaborators enter as parameters:
`should_use_remote` is `should_use_remote_compact_task(&ctx.provider)`;
`remote_result` / `local_result` are the outcomes of the chosen strategy
(`run_remote_compact_task` / `run_compact_task`); `counter_outcome` is
whatever `otel_manager.counter` returns, which the code discards with
`let _ = ...`. The `_cancellation_token` parameter mirrors the unused
token binding in the source. Returns the task's `Option<String>` result
together with the trace of effects. -/
def CompactTask.run (_task : CompactTask) (should_use_remote : Bool)
    (remote_result : Except CodexErr Unit) (local_result : Except CodexErr Unit)
    (counter_outcome : Except String Unit) (input : List UserInput)
    (_cancellation_token : Bool) : Option String × RunEffects :=
  if should_use_remote then
    let counters : List CounterEmission :=
      [{ name := "codex.task.compact", delta := 1, tags := [("type", "remote")] }]
    let _ := counter_outcome
    match remote_result with
    | .ok _ =>
      (none, { counters := counters, invocations := [.remoteCompact], events := [] })
    | .error err =>
      let event := EventMsg.Error
        (err.to_error_event (some "Error running remote compact task"))
      (none, { counters := counters, invocations := [.remoteCompact],
               events := [event] })
  else
    let counters : List CounterEmission :=
      [{ name := "codex.task.compact", delta := 1, tags := [("type", "local")] }]
    let _ := counter_outcome
    match local_result with
    | .ok _ =>
      (none, { counters := counters, invocations := [.localCompact input],
               events := [] })
    | .error err =>
      let event := EventMsg.Error
        (err.to_error_event (some "Error running local compact task"))
      (none, { counters := counters, invocations := [.localCompact input],
               events := [event] })

/-- C3: on a local-shell item, build_tool_call fails with
MissingLocalShellCallId exactly when both the call_id field and the
fallback id field are absent; otherwise it succeeds with call_id
preferred over id, and the produced ShellToolCallParams has sandbox
permission UseDefault and prefix_rule and justification unset. -/
theorem build_tool_call_local_shell_spec
    (parse : String → Option (String × String)) (id call_id : Option String)
    (exec : LocalShellExecAction) :
    (ToolRouter.build_tool_call parse (.LocalShellCall id call_id (.Exec exec)) =
        .error .MissingLocalShellCallId ↔ call_id = none ∧ id = none) ∧
    (∀ c, call_id = some c →
      ToolRouter.build_tool_call parse (.LocalShellCall id call_id (.Exec exec)) =
        .ok (some
          { tool_name := "local_shell", call_id := c,
            payload := .LocalShell
              { command := exec.command,
                workdir := exec.working_directory,
                timeout_ms := exec.timeout_ms,
                sandbox_permissions := some .UseDefault,
                prefix_rule := none,
                justification := none } })) ∧
    (call_id = none → ∀ i, id = some i →
      ToolRouter.build_tool_call parse (.LocalShellCall id call_id (.Exec exec)) =
        .ok (some
          { tool_name := "local_shell", call_id := i,
            payload := .LocalShell
              { command := exec.command,
                workdir := exec.working_directory,
                timeout_ms := exec.timeout_ms,
                sandbox_permissions := some .UseDefault,
                prefix_rule := none,
                justification := none } })) := by
  cases call_id <;> cases id <;>
    simp [ToolRouter.build_tool_call, Option.or]

/-- Witness for C3 at a concrete local-shell item carrying both ids:
call_id wins and the params are filled as stated. -/
theorem build_tool_call_local_shell_spec_witness :
    ToolRouter.build_tool_call (fun _ => none)
        (.LocalShellCall (some "fallback") (some "c17")
          (.Exec { command := ["ls"], working_directory := none, timeout_ms := none })) =
      .ok (some
        { tool_name := "local_shell", call_id := "c17",
          payload := .LocalShell
            { command := ["ls"], workdir := none,
              timeout_ms := none, sandbox_permissions := some .UseDefault,
              prefix_rule := none, justification := none } }) :=
  (build_tool_call_local_shell_spec (fun _ => none) (some "fallback") (some "c17")
    { command := ["ls"], working_directory := none, timeout_ms := none }).2.1 "c17" rfl

/-- C6: on a function-call item, build_tool_call produces an Mcp payload
with the resolved server and tool names and the unmodified arguments when
the MCP lookup resolves, and a Function payload with the same arguments
when it does not; call_id and name are preserved either way. -/
theorem build_tool_call_function_call_spec
    (parse : String → Option (String × String)) (name arguments call_id : String) :
    (∀ server tool, parse name = some (server, tool) →
      ToolRouter.build_tool_call parse (.FunctionCall name arguments call_id) =
        .ok (some
          { tool_name := name, call_id := call_id,
            payload := .Mcp server tool arguments })) ∧
    (parse name = none →
      ToolRouter.build_tool_call parse (.FunctionCall name arguments call_id) =
        .ok (some
          { tool_name := name, call_id := call_id,
            payload := .Function arguments })) := by
  refine ⟨fun server tool h => ?_, fun h => ?_⟩ <;>
    simp [ToolRouter.build_tool_call, h]

/-- Witness for C6: one resolving and one non-resolving lookup at
concrete inputs. -/
theorem build_tool_call_function_call_spec_witness :
    ToolRouter.build_tool_call (fun _ => some ("srv", "tl"))
        (.FunctionCall "n" "args" "c1") =
      .ok (some
        { tool_name := "n", call_id := "c1",
          payload := .Mcp "srv" "tl" "args" }) ∧
    ToolRouter.build_tool_call (fun _ => none)
        (.FunctionCall "n" "args" "c1") =
      .ok (some
        { tool_name := "n", call_id := "c1",
          payload := .Function "args" }) :=
  ⟨(build_tool_call_function_call_spec (fun _ => some ("srv", "tl")) "n" "args" "c1").1
      "srv" "tl" rfl,
   (build_tool_call_function_call_spec (fun _ => none) "n" "args" "c1").2 rfl⟩

/-- C9: build_tool_call returns Ok none, never an error, for every item
that is not a function call, custom tool call, or local-shell call. -/
theorem build_tool_call_non_tool_item
    (parse : String → Option (String × String)) (item : ResponseItem)
    (h : item.isToolCallItem = false) :
    ToolRouter.build_tool_call parse item = .ok none := by
  cases item <;> simp_all [ResponseItem.isToolCallItem, ToolRouter.build_tool_call]

/-- Witness for C9 at a concrete message item. -/
theorem build_tool_call_non_tool_item_witness :
    (ResponseItem.Message "hi").isToolCallItem = false ∧
    ToolRouter.build_tool_call (fun _ => none) (.Message "hi") = .ok none :=
  ⟨rfl, build_tool_call_non_tool_item (fun _ => none) (.Message "hi") rfl⟩

/-- C10: every accepted local-shell item yields a ToolCall whose
tool_name is the fixed string named local_shell, a member of the shell
alias set. -/
theorem build_tool_call_local_shell_name
    (parse : String → Option (String × String)) (id call_id : Option String)
    (action : LocalShellAction) (tc : ToolCall)
    (h : ToolRouter.build_tool_call parse (.LocalShellCall id call_id action) =
      .ok (some tc)) :
    tc.tool_name = "local_shell" ∧ "local_shell" ∈ SHELL_TOOL_ALIASES := by
  cases action with
  | Exec exec =>
    refine ⟨?_, by decide⟩
    cases call_id <;> cases id <;>
      simp [ToolRouter.build_tool_call, Option.or] at h <;>
      rw [← h]

/-- Witness for C10 at a concrete accepted local-shell item. -/
theorem build_tool_call_local_shell_name_witness :
    ToolRouter.build_tool_call (fun _ => none)
        (.LocalShellCall none (some "c9")
          (.Exec { command := ["pwd"], working_directory := none, timeout_ms := none })) =
      .ok (some
        { tool_name := "local_shell", call_id := "c9",
          payload := .LocalShell
            { command := ["pwd"], workdir := none,
              timeout_ms := none, sandbox_permissions := some .UseDefault,
              prefix_rule := none, justification := none } }) ∧
    ("local_shell" : String) = "local_shell" ∧ "local_shell" ∈ SHELL_TOOL_ALIASES :=
  ⟨rfl, build_tool_call_local_shell_name (fun _ => none) none (some "c9")
    (.Exec { command := ["pwd"], working_directory := none, timeout_ms := none })
    { tool_name := "local_shell", call_id := "c9",
      payload := .LocalShell
        { command := ["pwd"], workdir := none,
          timeout_ms := none, sandbox_permissions := some .UseDefault,
          prefix_rule := none, justification := none } } rfl⟩

/-- C4: CompactTask.run returns none on every path, and when the chosen
strategy fails it sends exactly one Error event, tagged remote or local
in its message context, through the session event channel. -/
theorem compact_run_never_raises (task : CompactTask) (b : Bool)
    (rr lr : Except CodexErr Unit) (co : Except String Unit)
    (input : List UserInput) (tok : Bool) :
    (task.run b rr lr co input tok).1 = none ∧
    (∀ e, b = true → rr = .error e →
      (task.run b rr lr co input tok).2.events =
        [.Error (e.to_error_event (some "Error running remote compact task"))]) ∧
    (∀ e, b = false → lr = .error e →
      (task.run b rr lr co input tok).2.events =
        [.Error (e.to_error_event (some "Error running local compact task"))]) := by
  cases b <;> cases rr <;> cases lr <;> simp [CompactTask.run]

/-- Witness for C4: a failing remote strategy yields the none result and
the single tagged error event. -/
theorem compact_run_never_raises_witness :
    (CompactTask.mk.run true (.error { message := "boom" }) (.ok ()) (.ok ())
      [] false).1 = none ∧
    (CompactTask.mk.run true (.error { message := "boom" }) (.ok ()) (.ok ())
      [] false).2.events =
      [.Error { context := some "Error running remote compact task",
                message := "boom" }] :=
  ⟨(compact_run_never_raises CompactTask.mk true (.error { message := "boom" })
      (.ok ()) (.ok ()) [] false).1,
   (compact_run_never_raises CompactTask.mk true (.error { message := "boom" })
      (.ok ()) (.ok ()) [] false).2.1 { message := "boom" } rfl rfl⟩

/-- C5: the remote branch emits exactly the one remote-tagged counter
increment and invokes the remote strategy with no user input; the local
branch emits exactly the one local-tagged increment and hands the local
strategy the original input; and the counter outcome never influences the
run result or effects. -/
theorem compact_run_branch_dispatch (task : CompactTask) (b : Bool)
    (rr lr : Except CodexErr Unit) (co : Except String Unit)
    (input : List UserInput) (tok : Bool) :
    (b = true →
      (task.run b rr lr co input tok).2.counters =
        [{ name := "codex.task.compact", delta := 1, tags := [("type", "remote")] }] ∧
      (task.run b rr lr co input tok).2.invocations = [.remoteCompact]) ∧
    (b = false →
      (task.run b rr lr co input tok).2.counters =
        [{ name := "codex.task.compact", delta := 1, tags := [("type", "local")] }] ∧
      (task.run b rr lr co input tok).2.invocations = [.localCompact input]) ∧
    (∀ co2, task.run b rr lr co input tok = task.run b rr lr co2 input tok) := by
  refine ⟨fun hb => ?_, fun hb => ?_, fun co2 => rfl⟩ <;>
    subst hb <;> cases rr <;> cases lr <;> simp [CompactTask.run]

/-- Witness for C5: a remote run with a failing counter emission still
emits the remote-tagged increment and invokes the remote strategy. -/
theorem compact_run_branch_dispatch_witness :
    (CompactTask.mk.run true (.ok ()) (.ok ()) (.error "otel down")
      [{ text := "hi" }] false).2.counters =
      [{ name := "codex.task.compact", delta := 1, tags := [("type", "remote")] }] ∧
    (CompactTask.mk.run true (.ok ()) (.ok ()) (.error "otel down")
      [{ text := "hi" }] false).2.invocations = [.remoteCompact] :=
  (compact_run_branch_dispatch CompactTask.mk true (.ok ()) (.ok ())
    (.error "otel down") [{ text := "hi" }] false).1 rfl

/-- C8 counterexample: with the cancellation token already cancelled and
a failing remote strategy, CompactTask.run still invokes the strategy,
still emits the error event, and behaves exactly as with an uncancelled
token — it does not terminate early on cancellation, refuting the claim
that run observes the token. -/
theorem compact_run_cancelled_token_cex :
    (CompactTask.mk.run true (.error { message := "boom" }) (.ok ()) (.ok ())
      [] true).2.invocations = [.remoteCompact] ∧
    (CompactTask.mk.run true (.error { message := "boom" }) (.ok ()) (.ok ())
      [] true).2.events ≠ [] ∧
    CompactTask.mk.run true (.error { message := "boom" }) (.ok ()) (.ok ())
      [] true =
      CompactTask.mk.run true (.error { message := "boom" }) (.ok ()) (.ok ())
        [] false :=
  ⟨rfl, by decide, rfl⟩

/-- C8 (amended): CompactTask.run accepts the cancellation token but
never reads it; its result and effects are independent of the token
state. -/
theorem compact_run_ignores_cancellation (task : CompactTask) (b : Bool)
    (rr lr : Except CodexErr Unit) (co : Except String Unit)
    (input : List UserInput) (t1 t2 : Bool) :
    task.run b rr lr co input t1 = task.run b rr lr co input t2 := rfl

/-- C1: dispatch_tool_call re-raises a registry Fatal error with the same
message, converts any other registry error into an Ok failure item shaped
by the payload variant (CustomToolCallOutput with the error display text
for Custom payloads, FunctionCallOutput with a Text body and success
false otherwise) carrying the original call_id, and passes a registry
success through unchanged. -/
theorem dispatch_tool_call_error_policy (r : ToolRouter) (call : ToolCall) :
    (∀ m, r.registry
        { call_id := call.call_id, tool_name := call.tool_name,
          payload := call.payload } = .error (.Fatal m) →
      r.dispatch_tool_call call = .error (.Fatal m)) ∧
    (∀ e, r.registry
        { call_id := call.call_id, tool_name := call.tool_name,
          payload := call.payload } = .error e →
      e.isFatal = false →
      ((call.payload.isCustom = true →
        r.dispatch_tool_call call =
          .ok (.CustomToolCallOutput call.call_id e.display)) ∧
       (call.payload.isCustom = false →
        r.dispatch_tool_call call =
          .ok (.FunctionCallOutput call.call_id
            { body := .Text e.display, success := some false })))) ∧
    (∀ resp, r.registry
        { call_id := call.call_id, tool_name := call.tool_name,
          payload := call.payload } = .ok resp →
      r.dispatch_tool_call call = .ok resp) := by
  refine ⟨fun m h => ?_, fun e h hf => ?_, fun resp h => ?_⟩
  · simp [ToolRouter.dispatch_tool_call, h]
  · cases e with
    | Fatal m => simp [FunctionCallError.isFatal] at hf
    | MissingLocalShellCallId =>
      refine ⟨fun hc => ?_, fun hc => ?_⟩ <;>
        simp [ToolRouter.dispatch_tool_call, h, ToolRouter.failure_response, hc]
    | Recoverable m =>
      refine ⟨fun hc => ?_, fun hc => ?_⟩ <;>
        simp [ToolRouter.dispatch_tool_call, h, ToolRouter.failure_response, hc]
  · simp [ToolRouter.dispatch_tool_call, h]

/-- Witness for C1: the fatal, recoverable-custom, recoverable-function,
and success cases at concrete routers and calls. -/
theorem dispatch_tool_call_error_policy_witness :
    (ToolRouter.dispatch_tool_call
        { registry := fun _ => .error (.Fatal "boom"), specs := [] }
        { tool_name := "t", call_id := "c", payload := .Function "a" } =
      .error (.Fatal "boom")) ∧
    (ToolRouter.dispatch_tool_call
        { registry := fun _ => .error (.Recoverable "oops"), specs := [] }
        { tool_name := "t", call_id := "c", payload := .Custom "in" } =
      .ok (.CustomToolCallOutput "c" "oops")) ∧
    (ToolRouter.dispatch_tool_call
        { registry := fun _ => .error (.Recoverable "oops"), specs := [] }
        { tool_name := "t", call_id := "c", payload := .Function "a" } =
      .ok (.FunctionCallOutput "c"
        { body := .Text "oops", success := some false })) ∧
    (ToolRouter.dispatch_tool_call
        { registry := fun _ => .ok (.CustomToolCallOutput "x" "y"), specs := [] }
        { tool_name := "t", call_id := "c", payload := .Function "a" } =
      .ok (.CustomToolCallOutput "x" "y")) :=
  ⟨(dispatch_tool_call_error_policy
      { registry := fun _ => .error (.Fatal "boom"), specs := [] }
      { tool_name := "t", call_id := "c", payload := .Function "a" }).1 "boom" rfl,
   ((dispatch_tool_call_error_policy
      { registry := fun _ => .error (.Recoverable "oops"), specs := [] }
      { tool_name := "t", call_id := "c", payload := .Custom "in" }).2.1
        (.Recoverable "oops") rfl rfl).1 rfl,
   ((dispatch_tool_call_error_policy
      { registry := fun _ => .error (.Recoverable "oops"), specs := [] }
      { tool_name := "t", call_id := "c", payload := .Function "a" }).2.1
        (.Recoverable "oops") rfl rfl).2 rfl,
   (dispatch_tool_call_error_policy
      { registry := fun _ => .ok (.CustomToolCallOutput "x" "y"), specs := [] }
      { tool_name := "t", call_id := "c", payload := .Function "a" }).2.2
        (.CustomToolCallOutput "x" "y") rfl⟩

/-- The configured-flag query holds exactly when some spec entry with the
queried name is configured with parallel support. -/
theorem configured_tool_supports_parallel_iff (r : ToolRouter) (n : String) :
    r.configured_tool_supports_parallel n = true ↔
      ∃ c ∈ r.specs, c.supports_parallel_tool_calls = true ∧ c.spec.name = n := by
  simp only [ToolRouter.configured_tool_supports_parallel, List.any_eq_true,
    List.mem_filter, beq_iff_eq]
  constructor
  · rintro ⟨c, ⟨hmem, hflag⟩, hname⟩
    exact ⟨c, hmem, hflag, hname⟩
  · rintro ⟨c, hmem, hflag, hname⟩
    exact ⟨c, ⟨hmem, hflag⟩, hname⟩

/-- Boolean membership in the alias list agrees with list membership. -/
theorem shell_alias_contains (n : String) :
    SHELL_TOOL_ALIASES.contains n = true ↔ n ∈ SHELL_TOOL_ALIASES :=
  ⟨List.mem_of_elem_eq_true, List.elem_eq_true_of_mem⟩

/-- On any member of the alias set, tool_supports_parallel computes the
disjunction of the configured flags over the whole alias set. -/
theorem tool_supports_parallel_alias (r : ToolRouter) (n : String)
    (h : n ∈ SHELL_TOOL_ALIASES) :
    r.tool_supports_parallel n =
      SHELL_TOOL_ALIASES.any (fun a => r.configured_tool_supports_parallel a) := by
  unfold ToolRouter.tool_supports_parallel
  by_cases hc : r.configured_tool_supports_parallel n = true
  · rw [if_pos hc]
    symm
    rw [List.any_eq_true]
    exact ⟨n, h, hc⟩
  · rw [if_neg hc, if_pos ((shell_alias_contains n).mpr h)]

/-- C2: for every name in the shell alias set, tool_supports_parallel is
true exactly when some spec entry with parallel support is configured
under an alias name (or under the queried name itself), so all aliases
receive the same answer. -/
theorem tool_supports_parallel_alias_closure (r : ToolRouter) (n : String)
    (h : n ∈ SHELL_TOOL_ALIASES) :
    (r.tool_supports_parallel n = true ↔
      ∃ c ∈ r.specs, c.supports_parallel_tool_calls = true ∧
        (c.spec.name ∈ SHELL_TOOL_ALIASES ∨ c.spec.name = n)) ∧
    (∀ m ∈ SHELL_TOOL_ALIASES,
      r.tool_supports_parallel m = r.tool_supports_parallel n) := by
  constructor
  · rw [tool_supports_parallel_alias r n h, List.any_eq_true]
    constructor
    · rintro ⟨a, ha, hc⟩
      obtain ⟨c, hcs, hflag, hname⟩ := (configured_tool_supports_parallel_iff r a).mp hc
      exact ⟨c, hcs, hflag, Or.inl (hname ▸ ha)⟩
    · rintro ⟨c, hcs, hflag, hmem | heq⟩
      · exact ⟨c.spec.name, hmem,
          (configured_tool_supports_parallel_iff r _).mpr ⟨c, hcs, hflag, rfl⟩⟩
      · exact ⟨n, h,
          (configured_tool_supports_parallel_iff r n).mpr ⟨c, hcs, hflag, heq⟩⟩
  · intro m hm
    rw [tool_supports_parallel_alias r m hm, tool_supports_parallel_alias r n h]

/-- Witness for C2: configuring only the shell spelling with parallel
support makes the container.exec spelling parallel-eligible. -/
theorem tool_supports_parallel_alias_closure_witness :
    ("container.exec" : String) ∈ SHELL_TOOL_ALIASES ∧
    ToolRouter.tool_supports_parallel
      { registry := fun _ => .ok (.CustomToolCallOutput "x" "y"),
        specs := [{ spec := { name := "shell" },
                    supports_parallel_tool_calls := true }] }
      "container.exec" = true :=
  ⟨by decide,
   (tool_supports_parallel_alias_closure
      { registry := fun _ => .ok (.CustomToolCallOutput "x" "y"),
        specs := [{ spec := { name := "shell" },
                    supports_parallel_tool_calls := true }] }
      "container.exec" (by decide)).1.mpr
     ⟨{ spec := { name := "shell" }, supports_parallel_tool_calls := true },
      by simp, rfl, Or.inl (by decide)⟩⟩

/-- C7: for every tool name outside the shell alias set,
tool_supports_parallel is true exactly when that name itself is
configured with parallel support; no other entry influences the
answer. -/
theorem tool_supports_parallel_non_alias (r : ToolRouter) (n : String)
    (h : n ∉ SHELL_TOOL_ALIASES) :
    r.tool_supports_parallel n = true ↔
      ∃ c ∈ r.specs, c.supports_parallel_tool_calls = true ∧ c.spec.name = n := by
  constructor
  · intro ht
    by_cases hc : r.configured_tool_supports_parallel n = true
    · exact (configured_tool_supports_parallel_iff r n).mp hc
    · exfalso
      unfold ToolRouter.tool_supports_parallel at ht
      rw [if_neg hc,
        if_neg (fun hcont => h ((shell_alias_contains n).mp hcont))] at ht
      exact Bool.false_ne_true ht
  · intro hex
    unfold ToolRouter.tool_supports_parallel
    rw [if_pos ((configured_tool_supports_parallel_iff r n).mpr hex)]

/-- Witness for C7 at a concrete non-alias tool name configured with
parallel support. -/
theorem tool_supports_parallel_non_alias_witness :
    ("read_file" : String) ∉ SHELL_TOOL_ALIASES ∧
    ToolRouter.tool_supports_parallel
      { registry := fun _ => .ok (.CustomToolCallOutput "x" "y"),
        specs := [{ spec := { name := "read_file" },
                    supports_parallel_tool_calls := true }] }
      "read_file" = true :=
  ⟨by decide,
   (tool_supports_parallel_non_alias
      { registry := fun _ => .ok (.CustomToolCallOutput "x" "y"),
        specs := [{ spec := { name := "read_file" },
                    supports_parallel_tool_calls := true }] }
      "read_file" (by decide)).mpr
     ⟨{ spec := { name := "read_file" }, supports_parallel_tool_calls := true },
      by simp, rfl, rfl⟩⟩

end Codex
